import Mathlib

/-
  Verification of the call-session core of the mute chat application.

  The definitions below are a shallow embedding of the call protocol code:
  - src/client/src/lib/firebase.ts (class WebRTCService and the call-state
    store helpers built on the realtime database),
  - src/unnamed/part_002 (the UI controller: handleEndCall, handleAcceptCall,
    the call-state wiring of the WebRTCService event handlers),
  - src/server/routes.ts (the PATCH /api/calls/:callId route) together with
    src/shared/schema.ts (endCallSchema, updateCallSchema).

  Asynchronous callbacks are modelled as a step function over explicit events;
  external side effects (signals sent, call-state store writes, resource
  releases) are modelled as an emitted effect list.  Clock reads (Date.now())
  are threaded as explicit numeric arguments.
-/

/-- Signal type field of a WebRTCSignal (firebase.ts, webRTCSignalSchema). -/
inductive SignalType
  | offer
  | answer
  | iceCandidate
  | endCall
  | rejectCall
deriving DecidableEq, Repr

/-- One directed protocol message (firebase.ts, interface WebRTCSignal).
The SDP or ICE payload is kept opaque as an optional string. -/
structure WebRTCSignal where
  callId : String
  fromUserId : String
  toUserId : String
  type : SignalType
  payload : Option String
  timestamp : Nat
deriving DecidableEq, Repr

/-- Partial update written to the call-state store
(firebase.ts, updateCallState argument). -/
structure CallStateUpdate where
  status : Option String := none
  startedAt : Option Nat := none
  endedAt : Option Nat := none
deriving DecidableEq, Repr

/-- Snapshot delivered by the call-state store subscription
(firebase.ts, subscribeToCallState callback argument). -/
structure CallStateSnapshot where
  status : String
  startedAt : Option Nat := none
  endedAt : Option Nat := none
deriving DecidableEq, Repr

/-- Identity of a media stream fed into the audio mixing graph
(firebase.ts startRecording: createMediaStreamSource on localStream
and remoteStream). -/
inductive StreamRef
  | localStreamRef
  | remoteStreamRef
deriving DecidableEq, Repr

/-- Audio track of a media stream.  A mixedFrom track is the output of the
AudioContext destination node, carrying the connected input streams. -/
inductive AudioTrack
  | localMic
  | remoteAudio
  | mixedFrom (inputs : List StreamRef)
deriving DecidableEq, Repr

/-- Video track of a media stream. -/
inductive VideoTrack
  | localCamera (deviceId : Option String)
  | remoteVideo
deriving DecidableEq, Repr

/-- A media stream as a bag of tracks. -/
structure MediaStreamM where
  audioTracks : List AudioTrack := []
  videoTracks : List VideoTrack := []
deriving DecidableEq, Repr

/-- Activity state of a MediaRecorder. -/
inductive RecorderActivity
  | recording
  | inactive
deriving DecidableEq, Repr

/-- The MediaRecorder handle: its state and the stream it captures. -/
structure MediaRecorderM where
  state : RecorderActivity
  stream : MediaStreamM
deriving DecidableEq, Repr

/-- In-memory fields of one WebRTCService instance
(firebase.ts lines 298-314).  The peerConnection handle is modelled by its
presence plus its remoteDescription; recorded chunks are kept as their byte
sizes. -/
structure WebRTCServiceState where
  callId : String := ""
  userId : String := ""
  otherUserId : String := ""
  peerConnection : Bool := false
  remoteDescription : Option String := none
  localStream : Option MediaStreamM := none
  remoteStream : Option MediaStreamM := none
  mixedStream : Option MediaStreamM := none
  audioContext : Bool := false
  mediaRecorder : Option MediaRecorderM := none
  recordedChunks : List Nat := []
  signalUnsubscribe : Bool := false
  callStateUnsubscribe : Bool := false
  isCallEnded : Bool := false
  isCallActive : Bool := false
deriving DecidableEq, Repr

/-- Externally visible side effects of the service code. -/
inductive Effect
  | sentSignal (sig : WebRTCSignal)
  | storeUpdate (u : CallStateUpdate)
  | storeRemovalScheduled
  | recorderStopped
  | localTracksStopped
  | peerConnectionClosed
  | audioContextClosed
  | signalsUnsubscribed
  | callStateUnsubscribed
  | candidateApplied (payload : Option String)
  | remoteDescriptionSet (payload : Option String)
  | onCallEndedFired
  | onCallAcceptedFired
deriving DecidableEq, Repr

/-- Builds an outgoing signal from the service fields, as each sendSignal
call site in firebase.ts does. -/
def mkSignal (s : WebRTCServiceState) (t : SignalType) (payload : Option String)
    (now : Nat) : WebRTCSignal :=
  { callId := s.callId
    fromUserId := s.userId
    toUserId := s.otherUserId
    type := t
    payload := payload
    timestamp := now }

/- ===== SignalingTransport: the per-recipient mailbox ===== -/

/-- The mailbox of one recipient for one call: the realtime-database node
webrtc-signals/callId/toUserId, children keyed by the millisecond timestamp
used as the child path. -/
def SignalMailbox := Nat → Option WebRTCSignal

/-- sendSignal (firebase.ts lines 643-648): writes the signal with set() at
the child path Date.now().  A set at an existing path overwrites that child;
all other children are untouched. -/
def sendSignal (mb : SignalMailbox) (now : Nat) (sig : WebRTCSignal) : SignalMailbox :=
  fun t => if t = now then some sig else mb t

/-- The empty mailbox. -/
def emptyMailbox : SignalMailbox := fun _ => none

/- ===== WebRTCService operations ===== -/

/-- cleanup (firebase.ts lines 966-1007): cancel both subscriptions, stop the
local tracks, close the peer connection, close the AudioContext, drop the
remote and mixed streams and clear the recorded chunks.  The mediaRecorder
field is not cleared by cleanup in the source. -/
def cleanup (s : WebRTCServiceState) : WebRTCServiceState × List Effect :=
  ({ s with
      signalUnsubscribe := false
      callStateUnsubscribe := false
      localStream := none
      peerConnection := false
      remoteDescription := none
      audioContext := false
      remoteStream := none
      mixedStream := none
      recordedChunks := [] },
   (if s.signalUnsubscribe then [Effect.signalsUnsubscribed] else []) ++
   (if s.callStateUnsubscribe then [Effect.callStateUnsubscribed] else []) ++
   (if s.localStream.isSome then [Effect.localTracksStopped] else []) ++
   (if s.peerConnection then [Effect.peerConnectionClosed] else []) ++
   (if s.audioContext then [Effect.audioContextClosed] else []))

/-- The recorder-stop step of endCall (firebase.ts lines 875-878): stop the
media recorder when it exists and is not inactive.  Stopping moves the
recorder to the inactive state. -/
def stopRecorderIfActive (s : WebRTCServiceState) : WebRTCServiceState × List Effect :=
  match s.mediaRecorder with
  | some r =>
      if r.state = RecorderActivity.inactive then (s, [])
      else ({ s with mediaRecorder := some { r with state := RecorderActivity.inactive } },
            [Effect.recorderStopped])
  | none => (s, [])

/-- cleanupRemoteResources (firebase.ts lines 892-935): send the end-call
signal to the peer, write status ended with endedAt to the call-state store,
and schedule removal of the store record.  Each step has its own try/catch in
the source, so none of them changes the local service state. -/
def cleanupRemoteResources (now : Nat) (s : WebRTCServiceState) :
    WebRTCServiceState × List Effect :=
  (s,
   [Effect.sentSignal (mkSignal s SignalType.endCall none now),
    Effect.storeUpdate { status := some "ended", endedAt := some now },
    Effect.storeRemovalScheduled])

/-- endCall (firebase.ts lines 862-890): idempotent termination.  When the
isCallEnded latch is already set it returns with no side effects; otherwise
it sets the latch, stops the recorder if active, runs the synchronous local
cleanup, and runs the background remote cleanup. -/
def endCall (now : Nat) (s : WebRTCServiceState) : WebRTCServiceState × List Effect :=
  if s.isCallEnded then (s, [])
  else
    let p1 := stopRecorderIfActive { s with isCallEnded := true }
    let p2 := cleanup p1.1
    let p3 := cleanupRemoteResources now p2.1
    (p3.1, p1.2 ++ p2.2 ++ p3.2)

/-- startRecording (firebase.ts lines 650-737): returns early unless both the
local and the remote stream exist.  It then builds the audio mixing graph
(both streams connected to one destination node), assembles the capture
stream from the single mixed audio track plus the first local video track if
any, and starts a MediaRecorder on it with fresh recordedChunks.
createMediaStreamSource throws on a stream without audio tracks; the
surrounding try/catch then leaves the service without a recorder, with only
the AudioContext created before the throw. -/
def startRecording (s : WebRTCServiceState) : WebRTCServiceState :=
  match s.localStream, s.remoteStream with
  | some ls, some rs =>
      if ls.audioTracks = [] ∨ rs.audioTracks = [] then
        { s with audioContext := true }
      else
        let finalStream : MediaStreamM :=
          { audioTracks := [AudioTrack.mixedFrom
              [StreamRef.localStreamRef, StreamRef.remoteStreamRef]]
            videoTracks :=
              match ls.videoTracks with
              | [] => []
              | v :: _ => [v] }
        { s with
            audioContext := true
            mixedStream := some finalStream
            mediaRecorder := some { state := RecorderActivity.recording, stream := finalStream }
            recordedChunks := [] }
  | _, _ => s

/-- getRecording (firebase.ts lines 739-765): when a non-inactive recorder
exists it is stopped and the onstop callback resolves with the blob built
from the chunks, or null when there are none; otherwise the chunks are
returned directly as a blob when non-empty, else null.  The blob is modelled
as the list of chunk sizes. -/
def getRecording (s : WebRTCServiceState) : Option (List Nat) × WebRTCServiceState :=
  match s.mediaRecorder with
  | some r =>
      if r.state = RecorderActivity.inactive then
        if s.recordedChunks = [] then (none, s) else (some s.recordedChunks, s)
      else
        let r' : MediaRecorderM := { r with state := RecorderActivity.inactive }
        let s' := { s with mediaRecorder := some r' }
        if s.recordedChunks = [] then (none, s') else (some s.recordedChunks, s')
  | none =>
      if s.recordedChunks = [] then (none, s) else (some s.recordedChunks, s)

/-- Total size of a recorded blob. -/
def blobSize (chunks : List Nat) : Nat := chunks.sum

/-- handleSignal (firebase.ts lines 563-641).  Early return when the peer
connection is missing.  An offer sets the remote description and sends an
answer; an answer sets the remote description; an ice-candidate is dropped
when no remote description is set (warned, not queued) and applied otherwise;
end-call and reject-call only set the isCallEnded latch.  The whole switch is
wrapped in try/catch in the source, so negotiation errors never propagate. -/
def handleSignal (now : Nat) (s : WebRTCServiceState) (sig : WebRTCSignal) :
    WebRTCServiceState × List Effect :=
  if s.peerConnection = false then (s, [])
  else
    match sig.type with
    | SignalType.offer =>
        ({ s with remoteDescription := some (sig.payload.getD "") },
         [Effect.remoteDescriptionSet sig.payload,
          Effect.sentSignal (mkSignal s SignalType.answer (some "answer-sdp") now)])
    | SignalType.answer =>
        ({ s with remoteDescription := some (sig.payload.getD "") },
         [Effect.remoteDescriptionSet sig.payload])
    | SignalType.iceCandidate =>
        if s.remoteDescription = none then (s, [])
        else (s, [Effect.candidateApplied sig.payload])
    | SignalType.endCall =>
        if s.isCallEnded = false then ({ s with isCallEnded := true }, []) else (s, [])
    | SignalType.rejectCall =>
        if s.isCallEnded = false then ({ s with isCallEnded := true }, []) else (s, [])

/-- ICE connection states of the underlying peer connection. -/
inductive RTCIceConnState
  | newConn
  | checking
  | connected
  | completed
  | disconnected
  | failed
  | closed
deriving DecidableEq, Repr

/-- oniceconnectionstatechange (firebase.ts lines 455-480): on connected or
completed, when the isCallActive flag is not yet set, write status active
with startedAt to the call-state store.  No other state writes and no
teardown happen here. -/
def onIceConnectionStateChange (now : Nat) (s : WebRTCServiceState)
    (st : RTCIceConnState) : WebRTCServiceState × List Effect :=
  if st = RTCIceConnState.connected ∨ st = RTCIceConnState.completed then
    if s.isCallActive = false then
      (s, [Effect.storeUpdate { status := some "active", startedAt := some now }])
    else (s, [])
  else (s, [])

/-- acceptCall (firebase.ts lines 516-538): never writes to the call-state
store; it only logs and fires the onCallAccepted handler. -/
def acceptCall (s : WebRTCServiceState) : WebRTCServiceState × List Effect :=
  if s.peerConnection = false then (s, [])
  else (s, [Effect.onCallAcceptedFired])

/-- ontrack (firebase.ts lines 421-436): add the received tracks to the
remote stream; when the call is already active, a local stream exists and no
recorder was created yet, start recording. -/
def onTrack (s : WebRTCServiceState) (audio : List AudioTrack)
    (video : List VideoTrack) : WebRTCServiceState :=
  match s.remoteStream with
  | none => s
  | some rs =>
      let rs' : MediaStreamM :=
        { audioTracks := rs.audioTracks ++ audio
          videoTracks := rs.videoTracks ++ video }
      let s1 := { s with remoteStream := some rs' }
      if s1.isCallActive = true ∧ s1.localStream.isSome ∧ s1.mediaRecorder = none then
        startRecording s1
      else s1

/-- The call-state subscription callback (firebase.ts lines 373-391) combined
with the UI reaction wired into it (part_002: the onCallEnded handler invokes
handleEndCall, whose service part is webrtcService.endCall()).  On the first
active snapshot the isCallActive flag is set and recording starts.  On the
first ended snapshot the isCallEnded latch is set and onCallEnded fires,
which leads the UI to call endCall on the service. -/
def onCallStateChange (now : Nat) (s : WebRTCServiceState) (st : CallStateSnapshot) :
    WebRTCServiceState × List Effect :=
  let s1 := if st.status = "active" ∧ s.isCallActive = false then
              startRecording { s with isCallActive := true }
            else s
  if st.status = "ended" ∧ s1.isCallEnded = false then
    let s2 := { s1 with isCallEnded := true }
    let p := endCall now s2
    (p.1, Effect.onCallEndedFired :: p.2)
  else (s1, [])

/-- One asynchronous callback turn of the service. -/
inductive ServiceEvent
  | iceStateChange (st : RTCIceConnState)
  | acceptRequested
  | signalReceived (sig : WebRTCSignal)
  | callStateChanged (st : CallStateSnapshot)
  | endRequested
  | trackReceived (audio : List AudioTrack) (video : List VideoTrack)
  | recorderData (size : Nat)
deriving DecidableEq, Repr

/-- Dispatch of one event to the corresponding handler.  recorderData models
the ondataavailable callback (firebase.ts lines 725-730): a chunk is buffered
only when its size is positive. -/
def step (now : Nat) (s : WebRTCServiceState) (e : ServiceEvent) :
    WebRTCServiceState × List Effect :=
  match e with
  | ServiceEvent.iceStateChange st => onIceConnectionStateChange now s st
  | ServiceEvent.acceptRequested => acceptCall s
  | ServiceEvent.signalReceived sig => handleSignal now s sig
  | ServiceEvent.callStateChanged st => onCallStateChange now s st
  | ServiceEvent.endRequested => endCall now s
  | ServiceEvent.trackReceived a v => (onTrack s a v, [])
  | ServiceEvent.recorderData n =>
      match s.mediaRecorder with
      | some r =>
          if r.state = RecorderActivity.recording ∧ 0 < n then
            ({ s with recordedChunks := s.recordedChunks ++ [n] }, [])
          else (s, [])
      | none => (s, [])

/-- Runs a timed event trace through the service, concatenating effects. -/
def run (s : WebRTCServiceState) : List (Nat × ServiceEvent) →
    WebRTCServiceState × List Effect
  | [] => (s, [])
  | te :: rest =>
      let p := step te.1 s te.2
      let q := run p.1 rest
      (q.1, p.2 ++ q.2)

/-- Iterated invocation of endCall, modelling N sequential end triggers. -/
def endCallTimes (now : Nat) (s : WebRTCServiceState) : Nat →
    WebRTCServiceState × List Effect
  | 0 => (s, [])
  | n + 1 =>
      let p := endCall now s
      let q := endCallTimes now p.1 n
      (q.1, p.2 ++ q.2)

/-- Number of end-call signals sent in an effect list. -/
def countEndCallSignals (effs : List Effect) : Nat :=
  effs.countP fun e =>
    match e with
    | Effect.sentSignal sig => sig.type = SignalType.endCall
    | _ => false

/-- Number of call-state store writes setting status ended. -/
def countEndedWrites (effs : List Effect) : Nat :=
  effs.countP fun e =>
    match e with
    | Effect.storeUpdate u => u.status = some "ended"
    | _ => false

/-- Number of call-state store writes setting status active. -/
def countActiveWrites (effs : List Effect) : Nat :=
  effs.countP fun e =>
    match e with
    | Effect.storeUpdate u => u.status = some "active"
    | _ => false

/- ===== Signal consumption loop (listenForSignals) ===== -/

/-- Outcome of applying one signal inside handleSignal; the try/catch there
logs a failure and continues. -/
inductive ApplyOutcome
  | applied
  | failed (msg : String)
deriving DecidableEq, Repr

/-- The snapshot filter of listenForSignals (firebase.ts lines 547-553):
collect every child whose fromUserId differs from the local user. -/
def collectForeignSignals (userId : String) (snap : List (Nat × WebRTCSignal)) :
    List (Nat × WebRTCSignal) :=
  snap.filter fun p => p.2.fromUserId ≠ userId

/-- The consumption loop of listenForSignals (firebase.ts lines 555-559): for
each collected signal, await handleSignal (which never rejects, because its
body is wrapped in try/catch, so the apply outcome is ignored), then remove
the child at the signal key from the mailbox. -/
def consumeSignals (applyFn : WebRTCSignal → ApplyOutcome)
    (mb : List (Nat × WebRTCSignal)) :
    List (Nat × WebRTCSignal) → List (Nat × WebRTCSignal)
  | [] => mb
  | p :: rest =>
      let _ := applyFn p.2
      consumeSignals applyFn (mb.filter fun q => q.1 ≠ p.1) rest

/- ===== Server: PATCH /api/calls/:callId (routes.ts lines 892-938) ===== -/

/-- Request body of a call PATCH; every field is optional before schema
validation, mirroring an arbitrary JSON body against shared/schema.ts. -/
structure CallPatchBody where
  conversationId : Option String := none
  callerId : Option String := none
  callerUsername : Option String := none
  receiverId : Option String := none
  receiverUsername : Option String := none
  type : Option String := none
  status : Option String := none
  startedAt : Option Int := none
  endedAt : Option Int := none
  duration : Option Int := none
  recordingUrl : Option String := none
  timestamp : Option Int := none
deriving DecidableEq, Repr

/-- Membership in the call kind enum of callSchema (shared/schema.ts). -/
def validCallKind (t : String) : Bool := t = "voice" || t = "video"

/-- Membership in the status enum of callSchema (shared/schema.ts). -/
def validCallStatus (st : String) : Bool :=
  st = "ringing" || st = "active" || st = "ended" || st = "missed" || st = "rejected"

/-- endCallSchema.parse (shared/schema.ts lines 218-231): all fields but
recordingUrl required, status literally ended. -/
def endCallSchemaCheck (b : CallPatchBody) : Bool :=
  b.conversationId.isSome && b.callerId.isSome && b.callerUsername.isSome &&
  b.receiverId.isSome && b.receiverUsername.isSome &&
  (match b.type with
   | some t => validCallKind t
   | none => false) &&
  b.status = some "ended" &&
  b.startedAt.isSome && b.endedAt.isSome && b.duration.isSome && b.timestamp.isSome

/-- updateCallSchema.parse (shared/schema.ts lines 210-216): every field
optional, status restricted to the enum when present. -/
def updateCallSchemaCheck (b : CallPatchBody) : Bool :=
  match b.status with
  | some st => validCallStatus st
  | none => true

/-- Outcome of the awaited googleSheetsService.logCall(call, true). -/
inductive SheetsOutcome
  | success
  | failure (msg : String)
deriving DecidableEq, Repr

/-- Response of the PATCH route, identified by its branch. -/
inductive PatchResult
  | okEnded (callId : String)
  | okUpdated (callId : String)
  | badRequest
  | sheetsUnavailable
deriving DecidableEq, Repr

/-- HTTP status code of each PATCH response branch. -/
def patchResultCode : PatchResult → Nat
  | PatchResult.okEnded _ => 200
  | PatchResult.okUpdated _ => 200
  | PatchResult.badRequest => 400
  | PatchResult.sheetsUnavailable => 503

/-- The PATCH /api/calls/:callId route (routes.ts lines 893-938).  For a body
with status ended it validates against endCallSchema and awaits the Google
Sheets log, answering 503 when that write fails; any other body is validated
against updateCallSchema and answered without consulting Sheets.  A schema
failure raises ZodError, answered with 400. -/
def patchCall (callId : String) (body : CallPatchBody) (sheets : SheetsOutcome) :
    PatchResult :=
  if body.status = some "ended" then
    if endCallSchemaCheck body then
      match sheets with
      | SheetsOutcome.success => PatchResult.okEnded callId
      | SheetsOutcome.failure _ => PatchResult.sheetsUnavailable
    else PatchResult.badRequest
  else
    if updateCallSchemaCheck body then PatchResult.okUpdated callId
    else PatchResult.badRequest

/- ===== UI controller: handleEndCall (part_002 lines 1424-1526) ===== -/

/-- JavaScript truthiness of the optional startedAt number: both undefined
and 0 are falsy in the conditionals of handleEndCall. -/
def truthyTime : Option Int → Option Int
  | some t => if t = 0 then none else some t
  | none => none

/-- The duration computation of handleEndCall (part_002 lines 1442-1444):
Math.floor((Date.now() - startedAt) / 1000) when startedAt is truthy, else 0.
Int.fdiv is floor division, matching Math.floor on negatives as well. -/
def computeCallDuration (now : Int) (startedAt : Option Int) : Int :=
  match truthyTime startedAt with
  | some t => (now - t).fdiv 1000
  | none => 0

/-- The activeCall record held by the UI when the call ends. -/
structure ActiveCallRecord where
  id : String
  conversationId : String
  callerId : String
  callerUsername : String
  receiverId : String
  receiverUsername : String
  kind : String
  status : String
  startedAt : Option Int := none
  timestamp : Int
deriving DecidableEq, Repr

/-- The PATCH body built in the background block of handleEndCall (part_002
lines 1495-1510).  tDuration is the Date.now() read at line 1443, taken when
end processing begins; tPatch is the Date.now() read at lines 1505-1506,
taken only after the recording has been retrieved and uploaded.  The
startedAt field falls back to tPatch when the stored startedAt is falsy. -/
def buildEndCallPatch (call : ActiveCallRecord) (tDuration tPatch : Int)
    (recordingUrl : Option String) : CallPatchBody :=
  { conversationId := some call.conversationId
    callerId := some call.callerId
    callerUsername := some call.callerUsername
    receiverId := some call.receiverId
    receiverUsername := some call.receiverUsername
    type := some call.kind
    status := some "ended"
    startedAt := some ((truthyTime call.startedAt).getD tPatch)
    endedAt := some tPatch
    duration := some (computeCallDuration tDuration call.startedAt)
    recordingUrl := recordingUrl
    timestamp := some call.timestamp }

/- ===== Concrete fixtures ===== -/

/-- A local stream with one microphone and one camera track. -/
def exStreamLocal : MediaStreamM :=
  { audioTracks := [AudioTrack.localMic]
    videoTracks := [VideoTrack.localCamera none] }

/-- A remote stream carrying the peer audio track. -/
def exStreamRemote : MediaStreamM :=
  { audioTracks := [AudioTrack.remoteAudio] }

/-- The capture stream produced by startRecording on the two example
streams. -/
def exMixedStream : MediaStreamM :=
  { audioTracks := [AudioTrack.mixedFrom
      [StreamRef.localStreamRef, StreamRef.remoteStreamRef]]
    videoTracks := [VideoTrack.localCamera none] }

/-- A service mid call: connected, active, recording, two chunks buffered. -/
def liveCallState : WebRTCServiceState :=
  { callId := "call-1"
    userId := "userB"
    otherUserId := "userA"
    peerConnection := true
    remoteDescription := some "offer-sdp"
    localStream := some exStreamLocal
    remoteStream := some exStreamRemote
    mixedStream := some exMixedStream
    audioContext := true
    mediaRecorder := some { state := RecorderActivity.recording, stream := exMixedStream }
    recordedChunks := [4096, 4096]
    signalUnsubscribe := true
    callStateUnsubscribe := true
    isCallEnded := false
    isCallActive := true }

/-- The end-call signal of the peer as userB receives it. -/
def endSignalFromPeer : WebRTCSignal :=
  { callId := "call-1"
    fromUserId := "userA"
    toUserId := "userB"
    type := SignalType.endCall
    payload := none
    timestamp := 100 }

/-- An ice-candidate signal from the peer. -/
def candSig : WebRTCSignal :=
  { callId := "call-1"
    fromUserId := "userA"
    toUserId := "userB"
    type := SignalType.iceCandidate
    payload := some "cand-1"
    timestamp := 7 }

/-- A receiver-side service that has not yet seen the offer. -/
def preOfferState : WebRTCServiceState :=
  { callId := "call-1"
    userId := "userB"
    otherUserId := "userA"
    peerConnection := true
    remoteDescription := none
    localStream := some exStreamLocal
    remoteStream := some { }
    signalUnsubscribe := true
    callStateUnsubscribe := true }

/-- The same service after the offer set the remote description. -/
def postOfferState : WebRTCServiceState :=
  { preOfferState with remoteDescription := some "offer-sdp" }

/- ===== C4: candidate deferral ===== -/

/-- C4.  Candidate deferral: an ice-candidate signal processed while the peer
connection has no remote description is dropped — the service state is
unchanged (in particular nothing is queued; the service holds no candidate
buffer) and no candidate is applied; an ice-candidate processed after a
remote description has been set is applied via addIceCandidate. -/
theorem c4_candidate_deferral (now : Nat) (s : WebRTCServiceState)
    (sig : WebRTCSignal) (hpc : s.peerConnection = true)
    (hty : sig.type = SignalType.iceCandidate) :
    (s.remoteDescription = none → handleSignal now s sig = (s, [])) ∧
    (s.remoteDescription.isSome →
      handleSignal now s sig = (s, [Effect.candidateApplied sig.payload])) := by
  constructor
  · intro hrd
    simp [handleSignal, hpc, hty, hrd]
  · intro hrd
    have hne : ¬ s.remoteDescription = none := by
      cases h : s.remoteDescription with
      | none => rw [h] at hrd; simp at hrd
      | some d => simp
    simp [handleSignal, hpc, hty, hne]

/-- C4 witness: the concrete pre-offer service drops the candidate, the
post-offer service applies it. -/
theorem c4_candidate_deferral_witness :
    handleSignal 7 preOfferState candSig = (preOfferState, []) ∧
    handleSignal 7 postOfferState candSig =
      (postOfferState, [Effect.candidateApplied (some "cand-1")]) := by
  constructor
  · exact (c4_candidate_deferral 7 preOfferState candSig rfl rfl).1 rfl
  · have h := (c4_candidate_deferral 7 postOfferState candSig rfl rfl).2
      (by simp [postOfferState, preOfferState])
    simpa [candSig] using h

/- ===== C8: audit-coupled end update ===== -/

/-- C8.  The PATCH of a call returns HTTP 503 exactly when the body is a
valid ended-call update and the awaited Google Sheets audit write fails; a
PATCH whose status is not ended never consults the Sheets outcome, so its
response is the same whatever that outcome is. -/
theorem c8_audit_coupled_end_update (callId : String) (b : CallPatchBody)
    (sheets : SheetsOutcome) :
    (patchResultCode (patchCall callId b sheets) = 503 ↔
      (b.status = some "ended" ∧ endCallSchemaCheck b = true ∧
       ∃ m, sheets = SheetsOutcome.failure m)) ∧
    (b.status ≠ some "ended" →
      ∀ sh1 sh2 : SheetsOutcome, patchCall callId b sh1 = patchCall callId b sh2) := by
  constructor
  · unfold patchCall
    by_cases h1 : b.status = some "ended"
    · by_cases h2 : endCallSchemaCheck b = true
      · cases sheets with
        | success => simp [h1, h2, patchResultCode]
        | failure m => simp [h1, h2, patchResultCode]
      · simp [h1, h2, patchResultCode]
    · by_cases h3 : updateCallSchemaCheck b = true
      · simp [h1, h3, patchResultCode]
      · simp [h1, h3, patchResultCode]
  · intro hne sh1 sh2
    unfold patchCall
    simp [hne]

/-- A complete ended-call body as handleEndCall sends it. -/
def exEndedBody : CallPatchBody :=
  { conversationId := some "conv-1"
    callerId := some "userA"
    callerUsername := some "alice"
    receiverId := some "userB"
    receiverUsername := some "bob"
    type := some "video"
    status := some "ended"
    startedAt := some 1000
    endedAt := some 127000
    duration := some 126
    recordingUrl := none
    timestamp := some 500 }

/-- A status-only body as handleAcceptCall sends it. -/
def exActiveBody : CallPatchBody :=
  { status := some "active", startedAt := some 1000 }

/-- C8 witness: the concrete ended body with a failing Sheets write yields
503, and the concrete active body gets the same response whether the Sheets
service is up or down. -/
theorem c8_audit_coupled_end_update_witness :
    patchResultCode (patchCall "call-1" exEndedBody (SheetsOutcome.failure "quota")) = 503 ∧
    patchCall "call-1" exActiveBody SheetsOutcome.success =
      patchCall "call-1" exActiveBody (SheetsOutcome.failure "down") := by
  constructor
  · exact (c8_audit_coupled_end_update "call-1" exEndedBody
      (SheetsOutcome.failure "quota")).1.mpr ⟨by decide, by decide, "quota", rfl⟩
  · exact (c8_audit_coupled_end_update "call-1" exActiveBody
      SheetsOutcome.success).2 (by decide) SheetsOutcome.success
      (SheetsOutcome.failure "down")

/- ===== C9: mailbox append and per-sender ordering ===== -/

/-- First signal written by the sender at millisecond 5. -/
def exSig1 : WebRTCSignal :=
  { callId := "call-1"
    fromUserId := "userA"
    toUserId := "userB"
    type := SignalType.offer
    payload := some "sdp-offer"
    timestamp := 5 }

/-- Second signal written by the same sender, also at millisecond 5. -/
def exSig2 : WebRTCSignal :=
  { callId := "call-1"
    fromUserId := "userA"
    toUserId := "userB"
    type := SignalType.iceCandidate
    payload := some "cand-1"
    timestamp := 5 }

/-- C9 counterexample.  sendSignal keys the child path by Date.now() and
writes with set, which overwrites an existing child at the same path.  Two
sends by the same sender within the same millisecond collide: after the
first send the mailbox holds the first signal at key 5, and the second send
replaces it with the second, distinct signal — so it is false that every
send appends without removing or replacing a signal already present. -/
theorem c9_mailbox_append_counterexample :
    sendSignal emptyMailbox 5 exSig1 5 = some exSig1 ∧
    sendSignal (sendSignal emptyMailbox 5 exSig1) 5 exSig2 5 = some exSig2 ∧
    exSig1 ≠ exSig2 := by
  refine ⟨by simp [sendSignal, emptyMailbox], by simp [sendSignal], by decide⟩

/-- C9 amended.  Provided the millisecond clock advanced between the two
sends (t1 < t2), both signals remain in the mailbox at their own keys, every
other key is untouched, and the key order t1 < t2 is the write order, which
is the order the snapshot iteration of the recipient delivers them in. -/
theorem c9_mailbox_append_amended (mb : SignalMailbox) (t1 t2 : Nat)
    (s1 s2 : WebRTCSignal) (hlt : t1 < t2) :
    sendSignal (sendSignal mb t1 s1) t2 s2 t1 = some s1 ∧
    sendSignal (sendSignal mb t1 s1) t2 s2 t2 = some s2 ∧
    (∀ t, t ≠ t1 → t ≠ t2 → sendSignal (sendSignal mb t1 s1) t2 s2 t = mb t) := by
  have hne : t1 ≠ t2 := Nat.ne_of_lt hlt
  refine ⟨?_, ?_, ?_⟩
  · simp [sendSignal, hne]
  · simp [sendSignal]
  · intro t ht1 ht2
    simp [sendSignal, ht1, ht2]

/-- C9 witness: two sends at milliseconds 5 and 6 both remain, in key
order. -/
theorem c9_mailbox_append_amended_witness :
    sendSignal (sendSignal emptyMailbox 5 exSig1) 6 exSig2 5 = some exSig1 ∧
    sendSignal (sendSignal emptyMailbox 5 exSig1) 6 exSig2 6 = some exSig2 := by
  have h := c9_mailbox_append_amended emptyMailbox 5 6 exSig1 exSig2 (by decide)
  exact ⟨h.1, h.2.1⟩

/- ===== C6: duration computation ===== -/

/-- The activeCall record of a call that became active at millisecond
1000. -/
def exEndedCall : ActiveCallRecord :=
  { id := "call-1"
    conversationId := "conv-1"
    callerId := "userA"
    callerUsername := "alice"
    receiverId := "userB"
    receiverUsername := "bob"
    kind := "video"
    status := "active"
    startedAt := some 1000
    timestamp := 500 }

/-- C6 counterexample.  The duration field is computed from the Date.now()
read taken when end processing begins (part_002 line 1443), while the endedAt
field is a later Date.now() read taken only after the recording upload
(part_002 line 1506).  For a call with startedAt 1000 whose end processing
began at 127000 but whose PATCH body is built at 130000, the body carries
duration 126, while the whole-second difference of its endedAt and startedAt
fields is 129: durationSeconds does not equal the whole-second difference of
endedAt and startedAt for every ended call. -/
theorem c6_duration_counterexample :
    (buildEndCallPatch exEndedCall 127000 130000 none).duration = some 126 ∧
    (buildEndCallPatch exEndedCall 127000 130000 none).endedAt = some 130000 ∧
    (buildEndCallPatch exEndedCall 127000 130000 none).startedAt = some 1000 ∧
    (buildEndCallPatch exEndedCall 127000 130000 none).duration ≠
      some ((130000 - 1000 : Int).fdiv 1000) := by
  refine ⟨by decide, by decide, by decide, by decide⟩

/-- C6 amended.  The duration written for an ended call is the whole-second
floor difference between the clock reading at which end processing began and
startedAt, and 0 when startedAt is unset (or 0, which JavaScript treats as
unset); when the PATCH body is built at that same clock reading — no time
passes during the background save — duration equals the whole-second
difference of the endedAt and startedAt fields of the body, matching the
spec example startedAt 1000, endedAt 127000, duration 126. -/
theorem c6_duration_amended (call : ActiveCallRecord) (tEnd : Int) :
    (∀ st, truthyTime call.startedAt = some st →
      (buildEndCallPatch call tEnd tEnd none).duration =
        some ((tEnd - st).fdiv 1000) ∧
      (buildEndCallPatch call tEnd tEnd none).startedAt = some st ∧
      (buildEndCallPatch call tEnd tEnd none).endedAt = some tEnd) ∧
    (truthyTime call.startedAt = none →
      (buildEndCallPatch call tEnd tEnd none).duration = some 0) := by
  constructor
  · intro st hst
    refine ⟨?_, ?_, rfl⟩
    · simp [buildEndCallPatch, computeCallDuration, hst]
    · simp [buildEndCallPatch, hst]
  · intro hst
    simp [buildEndCallPatch, computeCallDuration, hst]

/-- C6 witness: the spec example — startedAt 1000 and end at 127000 yield
duration 126; a call still ringing (startedAt unset) yields duration 0. -/
theorem c6_duration_amended_witness :
    (buildEndCallPatch exEndedCall 127000 127000 none).duration = some 126 ∧
    (buildEndCallPatch { exEndedCall with startedAt := none } 127000 127000 none).duration
      = some 0 := by
  constructor
  · have h := (c6_duration_amended exEndedCall 127000).1 1000 (by decide)
    rw [h.1]
    decide
  · exact (c6_duration_amended { exEndedCall with startedAt := none } 127000).2 (by decide)

/- ===== C10: recording unreachable after end ===== -/

/-- C10 counterexample.  When the isCallEnded latch was set by the end-call
signal of the peer rather than by endCall itself, a later endCall invocation
returns without stopping the recorder or clearing the chunk buffer, and
getRecording afterwards still returns the recorded blob rather than null. -/
theorem c10_recording_after_end_counterexample :
    (endCall 200 (step 100 liveCallState
        (ServiceEvent.signalReceived endSignalFromPeer)).1).2 = [] ∧
    (getRecording (endCall 200 (step 100 liveCallState
        (ServiceEvent.signalReceived endSignalFromPeer)).1).1).1 =
      some [4096, 4096] := by
  refine ⟨by decide, by decide⟩

/-- C10 amended.  After an endCall invocation that found the latch unset —
the only invocation that performs the teardown — every subsequent
getRecording returns null, because the synchronous cleanup inside endCall
clears the recorded-chunk buffer and the recorder is left inactive; an
invocation that early-returns on an already-set latch leaves the chunks
intact. -/
theorem c10_recording_after_end_amended (now : Nat) (s : WebRTCServiceState)
    (h : s.isCallEnded = false) :
    (getRecording (endCall now s).1).1 = none := by
  cases hrec : s.mediaRecorder with
  | none =>
      simp [endCall, h, stopRecorderIfActive, hrec, cleanup,
        cleanupRemoteResources, getRecording]
  | some r =>
      cases r with
      | mk ra rs =>
          cases ra <;>
            simp [endCall, h, stopRecorderIfActive, hrec, cleanup,
              cleanupRemoteResources, getRecording]

/-- C10 witness: ending the live recording session the regular way leaves no
retrievable recording. -/
theorem c10_recording_after_end_amended_witness :
    (getRecording (endCall 200 liveCallState).1).1 = none :=
  c10_recording_after_end_amended 200 liveCallState rfl

/- ===== C5: signal consumed at most once ===== -/

/-- The consumption loop removes the same keys whatever the per-signal apply
outcomes are: handleSignal catches all errors, so the loop never branches on
them. -/
theorem consumeSignals_apply_indep (f g : WebRTCSignal → ApplyOutcome)
    (pending : List (Nat × WebRTCSignal)) :
    ∀ mb, consumeSignals f mb pending = consumeSignals g mb pending := by
  induction pending with
  | nil => intro mb; rfl
  | cons p rest ih => intro mb; simp only [consumeSignals]; exact ih _

/-- Keys absent from the mailbox stay absent through the loop: the loop only
filters entries out, never adds any. -/
theorem consumeSignals_preserves_absent (f : WebRTCSignal → ApplyOutcome)
    (pending : List (Nat × WebRTCSignal)) :
    ∀ (mb : List (Nat × WebRTCSignal)) (k : Nat), (∀ q ∈ mb, q.1 ≠ k) →
      ∀ q ∈ consumeSignals f mb pending, q.1 ≠ k := by
  induction pending with
  | nil => intro mb k h; exact h
  | cons p rest ih =>
      intro mb k h
      apply ih
      intro q hq
      exact h q (List.mem_of_mem_filter hq)

/-- Every key handed to the consumption loop is gone from the mailbox when
the loop finishes. -/
theorem consumeSignals_removes (f : WebRTCSignal → ApplyOutcome) :
    ∀ (pending mb : List (Nat × WebRTCSignal)) (k : Nat) (sig : WebRTCSignal),
      (k, sig) ∈ pending → ∀ q ∈ consumeSignals f mb pending, q.1 ≠ k := by
  intro pending
  induction pending with
  | nil => intro mb k sig h; cases h
  | cons p rest ih =>
      intro mb k sig hmem q hq
      rcases List.mem_cons.mp hmem with hhd | htl
      · have hk : p.1 = k := by rw [← hhd]
        subst hk
        refine consumeSignals_preserves_absent f rest _ p.1 ?_ q hq
        intro q' hq'
        have := List.of_mem_filter hq'
        simpa using this
      · exact ih _ k sig htl q hq

/-- C5.  Signal consumed at most once: the listenForSignals loop removes
every delivered signal from the mailbox right after applying it, and the
removal does not depend on whether applying succeeded or failed (handleSignal
swallows all errors), so a consumed key can never be delivered again. -/
theorem c5_signal_consumed_at_most_once (f g : WebRTCSignal → ApplyOutcome)
    (userId : String) (snap : List (Nat × WebRTCSignal)) :
    (consumeSignals f snap (collectForeignSignals userId snap) =
      consumeSignals g snap (collectForeignSignals userId snap)) ∧
    (∀ k sig, (k, sig) ∈ collectForeignSignals userId snap →
      ∀ q ∈ consumeSignals f snap (collectForeignSignals userId snap), q.1 ≠ k) := by
  exact ⟨consumeSignals_apply_indep f g _ snap,
    fun k sig hmem q hq => consumeSignals_removes f _ snap k sig hmem q hq⟩

/-- A two-signal snapshot: an offer from the peer and a stale echo written by
the local user, which the filter skips. -/
def exSnapshot : List (Nat × WebRTCSignal) :=
  [(5, exSig1),
   (9, { callId := "call-1", fromUserId := "userB", toUserId := "userB",
         type := SignalType.answer, payload := some "sdp-answer", timestamp := 9 })]

/-- C5 witness: consuming the concrete snapshot removes the foreign signal
whether applying it succeeds or fails. -/
theorem c5_signal_consumed_at_most_once_witness :
    (consumeSignals (fun _ => ApplyOutcome.applied) exSnapshot
        (collectForeignSignals "userB" exSnapshot) =
      consumeSignals (fun _ => ApplyOutcome.failed "SDP parse error") exSnapshot
        (collectForeignSignals "userB" exSnapshot)) ∧
    (∀ q ∈ consumeSignals (fun _ => ApplyOutcome.applied) exSnapshot
        (collectForeignSignals "userB" exSnapshot), q.1 ≠ 5) := by
  have h := c5_signal_consumed_at_most_once (fun _ => ApplyOutcome.applied)
    (fun _ => ApplyOutcome.failed "SDP parse error") "userB" exSnapshot
  refine ⟨h.1, ?_⟩
  intro q hq
  exact h.2 5 exSig1 (by decide) q hq

/- ===== C7: recording gating ===== -/

/-- C7.  Recording gating: startRecording returns without starting anything
unless both streams exist; a session that never created a recorder answers
getRecording with null rather than an error; when both streams carry media,
startRecording creates the recorder exactly once — the ontrack and
call-state-change guards never re-create an existing recorder — capturing a
stream whose single audio track is the mix of the local and the remote
stream; and stopping a running recorder with at least one buffered chunk
yields the non-empty blob of those chunks. -/
theorem c7_recording_gating :
    (∀ s : WebRTCServiceState, s.remoteStream = none → startRecording s = s) ∧
    (∀ s : WebRTCServiceState, s.mediaRecorder = none → s.recordedChunks = [] →
      (getRecording s).1 = none) ∧
    (∀ (s : WebRTCServiceState) (ls rs : MediaStreamM),
      s.localStream = some ls → s.remoteStream = some rs →
      ls.audioTracks ≠ [] → rs.audioTracks ≠ [] →
      ∃ r : MediaRecorderM, (startRecording s).mediaRecorder = some r ∧
        r.state = RecorderActivity.recording ∧
        r.stream.audioTracks =
          [AudioTrack.mixedFrom [StreamRef.localStreamRef, StreamRef.remoteStreamRef]]) ∧
    (∀ (s : WebRTCServiceState) (audio : List AudioTrack) (video : List VideoTrack)
      (r : MediaRecorderM), s.mediaRecorder = some r →
      (onTrack s audio video).mediaRecorder = some r) ∧
    (∀ (now : Nat) (s : WebRTCServiceState) (st : CallStateSnapshot),
      s.isCallActive = true → st.status = "active" →
      (onCallStateChange now s st).1.mediaRecorder = s.mediaRecorder) ∧
    (∀ (s : WebRTCServiceState) (r : MediaRecorderM), s.mediaRecorder = some r →
      r.state = RecorderActivity.recording → s.recordedChunks ≠ [] →
      (getRecording s).1 = some s.recordedChunks ∧
      ((∀ c ∈ s.recordedChunks, 0 < c) → 0 < blobSize s.recordedChunks)) := by
  refine ⟨?_, ?_, ?_, ?_, ?_, ?_⟩
  · intro s hrs
    simp [startRecording, hrs]
  · intro s hrec hchunks
    simp [getRecording, hrec, hchunks]
  · intro s ls rs hls hrs hla hra
    refine ⟨{ state := RecorderActivity.recording
              stream :=
                { audioTracks := [AudioTrack.mixedFrom
                    [StreamRef.localStreamRef, StreamRef.remoteStreamRef]]
                  videoTracks :=
                    match ls.videoTracks with
                    | [] => []
                    | v :: _ => [v] } }, ?_, rfl, rfl⟩
    simp [startRecording, hls, hrs, hla, hra]
  · intro s audio video r hrec
    cases hrs : s.remoteStream with
    | none => simp [onTrack, hrs, hrec]
    | some rstr => simp [onTrack, hrs, hrec]
  · intro now s st hact hst
    have hne : st.status = "ended" ↔ False := by
      rw [hst]; simp
    simp [onCallStateChange, hst, hact, hne]
  · intro s r hrec hstate hchunks
    constructor
    · have hni : ¬ r.state = RecorderActivity.inactive := by
        rw [hstate]; simp
      simp [getRecording, hrec, hni, hchunks]
    · intro hpos
      cases hc : s.recordedChunks with
      | nil => exact absurd hc hchunks
      | cons c cs =>
          have hcpos : 0 < c := hpos c (by rw [hc]; exact List.mem_cons_self c cs)
          have hle : c ≤ blobSize (c :: cs) := by
            rw [blobSize]
            simp
          exact Nat.lt_of_lt_of_le hcpos hle

/-- A session where the call ended before any remote media arrived: no
recorder was ever created. -/
def localOnlyState : WebRTCServiceState :=
  { callId := "call-2"
    userId := "userA"
    otherUserId := "userB"
    peerConnection := true
    localStream := some exStreamLocal
    remoteStream := some { }
    signalUnsubscribe := true
    callStateUnsubscribe := true }

/-- C7 witness: the local-only session has no recording; starting on the
live pair of streams produces a recording recorder over the single mixed
audio track; the live session with two one-second chunks yields its
non-empty blob. -/
theorem c7_recording_gating_witness :
    (getRecording localOnlyState).1 = none ∧
    (∃ r : MediaRecorderM,
      (startRecording { localOnlyState with remoteStream := some exStreamRemote }).mediaRecorder = some r ∧
      r.state = RecorderActivity.recording ∧
      r.stream.audioTracks =
        [AudioTrack.mixedFrom [StreamRef.localStreamRef, StreamRef.remoteStreamRef]]) ∧
    (getRecording liveCallState).1 = some [4096, 4096] ∧
    0 < blobSize [4096, 4096] := by
  refine ⟨c7_recording_gating.2.1 localOnlyState rfl rfl, ?_, ?_, ?_⟩
  · exact c7_recording_gating.2.2.1 _ exStreamLocal exStreamRemote rfl rfl
      (by decide) (by decide)
  · exact (c7_recording_gating.2.2.2.2.2 liveCallState
      { state := RecorderActivity.recording, stream := exMixedStream }
      rfl rfl (by decide)).1
  · exact (c7_recording_gating.2.2.2.2.2 liveCallState
      { state := RecorderActivity.recording, stream := exMixedStream }
      rfl rfl (by decide)).2 (by decide)

/- ===== Helper lemmas on endCall and the effect counters ===== -/

/-- An endCall invocation that finds the latch set returns at once with no
side effects (firebase.ts lines 866-869). -/
theorem endCall_latched (now : Nat) (s : WebRTCServiceState)
    (h : s.isCallEnded = true) : endCall now s = (s, []) := by
  simp [endCall, h]

/-- Iterated endCall on a latched service does nothing at all. -/
theorem endCallTimes_latched (now : Nat) (s : WebRTCServiceState)
    (h : s.isCallEnded = true) : ∀ n, endCallTimes now s n = (s, []) := by
  intro n
  induction n with
  | zero => rfl
  | succ m ih => simp [endCallTimes, endCall_latched now s h, ih]

/-- The recorder-stop step emits no signal, no store write and no resource
release effect. -/
theorem stopRecorderIfActive_counts (s : WebRTCServiceState) :
    countEndCallSignals (stopRecorderIfActive s).2 = 0 ∧
    countEndedWrites (stopRecorderIfActive s).2 = 0 ∧
    (stopRecorderIfActive s).2.count Effect.localTracksStopped = 0 ∧
    (stopRecorderIfActive s).2.count Effect.peerConnectionClosed = 0 := by
  unfold stopRecorderIfActive
  cases s.mediaRecorder with
  | none => simp [countEndCallSignals, countEndedWrites]
  | some r =>
      dsimp only
      split_ifs <;> simp [countEndCallSignals, countEndedWrites]

/-- The recorder-stop step stops a recording recorder exactly once. -/
theorem stopRecorderIfActive_stops (s : WebRTCServiceState) (r : MediaRecorderM)
    (hrec : s.mediaRecorder = some r) (hst : r.state = RecorderActivity.recording) :
    (stopRecorderIfActive s).2.count Effect.recorderStopped = 1 := by
  have hni : ¬ r.state = RecorderActivity.inactive := by rw [hst]; simp
  simp [stopRecorderIfActive, hrec, hni]

/-- The recorder-stop step does not change the latch, the local stream, the
peer connection or the subscriptions. -/
theorem stopRecorderIfActive_preserves (s : WebRTCServiceState) :
    (stopRecorderIfActive s).1.isCallEnded = s.isCallEnded ∧
    (stopRecorderIfActive s).1.localStream = s.localStream ∧
    (stopRecorderIfActive s).1.peerConnection = s.peerConnection := by
  unfold stopRecorderIfActive
  cases s.mediaRecorder with
  | none => exact ⟨rfl, rfl, rfl⟩
  | some r =>
      dsimp only
      split_ifs <;> exact ⟨rfl, rfl, rfl⟩

/-- The synchronous cleanup emits no signal, no store write and no recorder
stop. -/
theorem cleanup_counts (s : WebRTCServiceState) :
    countEndCallSignals (cleanup s).2 = 0 ∧
    countEndedWrites (cleanup s).2 = 0 ∧
    (cleanup s).2.count Effect.recorderStopped = 0 := by
  unfold cleanup
  split_ifs <;> simp [countEndCallSignals, countEndedWrites]

/-- The synchronous cleanup stops the local tracks exactly once when a local
stream exists. -/
theorem cleanup_count_tracks (s : WebRTCServiceState) (h : s.localStream.isSome) :
    (cleanup s).2.count Effect.localTracksStopped = 1 := by
  unfold cleanup
  split_ifs <;> simp_all

/-- The synchronous cleanup closes the peer connection exactly once when one
exists. -/
theorem cleanup_count_pc (s : WebRTCServiceState) (h : s.peerConnection = true) :
    (cleanup s).2.count Effect.peerConnectionClosed = 1 := by
  unfold cleanup
  split_ifs <;> simp_all

/-- The latch survives cleanup. -/
theorem cleanup_preserves_latch (s : WebRTCServiceState) :
    (cleanup s).1.isCallEnded = s.isCallEnded := rfl

/-- The background remote cleanup sends exactly one end-call signal, writes
status ended exactly once, and releases nothing locally. -/
theorem cleanupRemoteResources_counts (now : Nat) (s : WebRTCServiceState) :
    countEndCallSignals (cleanupRemoteResources now s).2 = 1 ∧
    countEndedWrites (cleanupRemoteResources now s).2 = 1 ∧
    (cleanupRemoteResources now s).2.count Effect.localTracksStopped = 0 ∧
    (cleanupRemoteResources now s).2.count Effect.peerConnectionClosed = 0 ∧
    (cleanupRemoteResources now s).2.count Effect.recorderStopped = 0 := by
  simp [cleanupRemoteResources, countEndCallSignals, countEndedWrites, mkSignal]

/- ===== C1: idempotent termination ===== -/

/-- Aggregated effect counts of one fresh endCall invocation. -/
theorem endCall_fresh_counts (now : Nat) (s : WebRTCServiceState)
    (h : s.isCallEnded = false) :
    (endCall now s).1.isCallEnded = true ∧
    countEndCallSignals (endCall now s).2 = 1 ∧
    countEndedWrites (endCall now s).2 = 1 ∧
    (s.localStream.isSome → (endCall now s).2.count Effect.localTracksStopped = 1) ∧
    (s.peerConnection = true → (endCall now s).2.count Effect.peerConnectionClosed = 1) ∧
    (∀ r : MediaRecorderM, s.mediaRecorder = some r →
      r.state = RecorderActivity.recording →
      (endCall now s).2.count Effect.recorderStopped = 1) := by
  have hs1 : ({ s with isCallEnded := true } : WebRTCServiceState).isCallEnded = true := rfl
  have heq : endCall now s =
      ((cleanup (stopRecorderIfActive { s with isCallEnded := true }).1).1,
       (stopRecorderIfActive { s with isCallEnded := true }).2 ++
        ((cleanup (stopRecorderIfActive { s with isCallEnded := true }).1).2 ++
         (cleanupRemoteResources now
           (cleanup (stopRecorderIfActive { s with isCallEnded := true }).1).1).2)) := by
    simp [endCall, h, cleanupRemoteResources, List.append_assoc]
  set s1 : WebRTCServiceState := { s with isCallEnded := true } with hs1def
  have hpre := stopRecorderIfActive_preserves s1
  have hstopc := stopRecorderIfActive_counts s1
  have hcleanc := cleanup_counts (stopRecorderIfActive s1).1
  have hremc := cleanupRemoteResources_counts now
    (cleanup (stopRecorderIfActive s1).1).1
  refine ⟨?_, ?_, ?_, ?_, ?_, ?_⟩
  · rw [heq]
    have := cleanup_preserves_latch (stopRecorderIfActive s1).1
    rw [this, hpre.1, hs1]
  · rw [heq]
    simp only [countEndCallSignals, List.countP_append] at *
    omega
  · rw [heq]
    simp only [countEndedWrites, List.countP_append] at *
    omega
  · intro hls
    rw [heq]
    have htr : (cleanup (stopRecorderIfActive s1).1).2.count
        Effect.localTracksStopped = 1 := by
      apply cleanup_count_tracks
      rw [hpre.2.1]
      exact hls
    simp only [List.count_append] at *
    omega
  · intro hpc
    rw [heq]
    have hpcc : (cleanup (stopRecorderIfActive s1).1).2.count
        Effect.peerConnectionClosed = 1 := by
      apply cleanup_count_pc
      rw [hpre.2.2]
      exact hpc
    simp only [List.count_append] at *
    omega
  · intro r hrec hrst
    rw [heq]
    have hstop : (stopRecorderIfActive s1).2.count Effect.recorderStopped = 1 :=
      stopRecorderIfActive_stops s1 r hrec hrst
    simp only [List.count_append] at *
    omega

/-- C1.  Idempotent termination: from a session whose latch is unset,
invoking endCall N times (N at least 1) sends exactly one end-call signal,
writes status ended to the call-state store exactly once, stops the local
tracks exactly once, closes the peer connection exactly once, stops a
running recorder exactly once, and leaves the latch set; moreover any endCall
invocation on a latched service returns with no side effects at all. -/
theorem c1_idempotent_termination (now : Nat) (s : WebRTCServiceState) (n : Nat)
    (hn : 1 ≤ n) (h : s.isCallEnded = false)
    (hls : s.localStream.isSome) (hpc : s.peerConnection = true) :
    countEndCallSignals (endCallTimes now s n).2 = 1 ∧
    countEndedWrites (endCallTimes now s n).2 = 1 ∧
    (endCallTimes now s n).2.count Effect.localTracksStopped = 1 ∧
    (endCallTimes now s n).2.count Effect.peerConnectionClosed = 1 ∧
    (∀ r : MediaRecorderM, s.mediaRecorder = some r →
      r.state = RecorderActivity.recording →
      (endCallTimes now s n).2.count Effect.recorderStopped = 1) ∧
    (endCallTimes now s n).1.isCallEnded = true ∧
    (∀ s' : WebRTCServiceState, s'.isCallEnded = true →
      endCall now s' = (s', [])) := by
  obtain ⟨m, rfl⟩ : ∃ m, n = m + 1 := ⟨n - 1, (Nat.succ_pred_eq_of_pos hn).symm⟩
  have hfc := endCall_fresh_counts now s h
  have hq : endCallTimes now (endCall now s).1 m = ((endCall now s).1, []) :=
    endCallTimes_latched now (endCall now s).1 hfc.1 m
  have heq : endCallTimes now s (m + 1) = ((endCall now s).1, (endCall now s).2) := by
    simp [endCallTimes, hq]
  rw [heq]
  exact ⟨hfc.2.1, hfc.2.2.1, hfc.2.2.2.1 hls, hfc.2.2.2.2.1 hpc,
    fun r hr hrst => hfc.2.2.2.2.2 r hr hrst, hfc.1,
    fun s' h' => endCall_latched now s' h'⟩

/-- C1 witness: ending the live session three times produces each terminal
side effect exactly once. -/
theorem c1_idempotent_termination_witness :
    countEndCallSignals (endCallTimes 200 liveCallState 3).2 = 1 ∧
    countEndedWrites (endCallTimes 200 liveCallState 3).2 = 1 ∧
    (endCallTimes 200 liveCallState 3).2.count Effect.localTracksStopped = 1 ∧
    (endCallTimes 200 liveCallState 3).2.count Effect.peerConnectionClosed = 1 ∧
    (endCallTimes 200 liveCallState 3).2.count Effect.recorderStopped = 1 := by
  have h := c1_idempotent_termination 200 liveCallState 3 (by decide) rfl rfl rfl
  exact ⟨h.1, h.2.1, h.2.2.1, h.2.2.2.1,
    h.2.2.2.2.1 { state := RecorderActivity.recording, stream := exMixedStream } rfl rfl⟩

/- ===== C2: no premature activation ===== -/

/-- The call-state subscription callback emits no store write: its only
possible effect is firing onCallEnded, because the endCall it reaches through
the UI handler always finds the latch it itself just set. -/
theorem onCallStateChange_effects (now : Nat) (s : WebRTCServiceState)
    (st : CallStateSnapshot) :
    (onCallStateChange now s st).2 = [] ∨
    (onCallStateChange now s st).2 = [Effect.onCallEndedFired] := by
  unfold onCallStateChange
  split <;> dsimp only <;> split
  · right
    simp [endCall]
  · left
    rfl
  · right
    simp [endCall]
  · left
    rfl

/-- Per-event activation trigger: any store write carrying status active can
only be emitted by the ICE connection-state handler on a connected or
completed transition, and it always carries startedAt equal to the clock
reading of that event. -/
theorem step_active_write_sole_trigger (now : Nat) (s : WebRTCServiceState)
    (e : ServiceEvent) (u : CallStateUpdate)
    (hmem : Effect.storeUpdate u ∈ (step now s e).2)
    (hact : u.status = some "active") :
    (e = ServiceEvent.iceStateChange RTCIceConnState.connected ∨
     e = ServiceEvent.iceStateChange RTCIceConnState.completed) ∧
    u.startedAt = some now := by
  cases e with
  | iceStateChange st =>
      cases st with
      | connected =>
          cases hia : s.isCallActive with
          | false =>
              simp [step, onIceConnectionStateChange, hia] at hmem
              exact ⟨Or.inl rfl, by rw [hmem]⟩
          | true =>
              simp [step, onIceConnectionStateChange, hia] at hmem
      | completed =>
          cases hia : s.isCallActive with
          | false =>
              simp [step, onIceConnectionStateChange, hia] at hmem
              exact ⟨Or.inr rfl, by rw [hmem]⟩
          | true =>
              simp [step, onIceConnectionStateChange, hia] at hmem
      | newConn => simp [step, onIceConnectionStateChange] at hmem
      | checking => simp [step, onIceConnectionStateChange] at hmem
      | disconnected => simp [step, onIceConnectionStateChange] at hmem
      | failed => simp [step, onIceConnectionStateChange] at hmem
      | closed => simp [step, onIceConnectionStateChange] at hmem
  | acceptRequested =>
      cases hpc : s.peerConnection <;> simp [step, acceptCall, hpc] at hmem
  | signalReceived sig =>
      cases hpc : s.peerConnection with
      | false => simp [step, handleSignal, hpc] at hmem
      | true =>
          cases hty : sig.type with
          | offer => simp [step, handleSignal, hpc, hty] at hmem
          | answer => simp [step, handleSignal, hpc, hty] at hmem
          | iceCandidate =>
              by_cases hrd : s.remoteDescription = none <;>
                simp [step, handleSignal, hpc, hty, hrd] at hmem
          | endCall =>
              cases hce : s.isCallEnded <;>
                simp [step, handleSignal, hpc, hty, hce] at hmem
          | rejectCall =>
              cases hce : s.isCallEnded <;>
                simp [step, handleSignal, hpc, hty, hce] at hmem
  | callStateChanged st =>
      rcases onCallStateChange_effects now s st with heff | heff <;>
        · rw [show (step now s (ServiceEvent.callStateChanged st)).2 =
              (onCallStateChange now s st).2 from rfl, heff] at hmem
          simp at hmem
  | endRequested =>
      cases hce : s.isCallEnded with
      | true =>
          rw [show (step now s ServiceEvent.endRequested).2 = (endCall now s).2
            from rfl, endCall_latched now s hce] at hmem
          simp at hmem
      | false =>
          have hfc : countEndCallSignals (endCall now s).2 = 1 ∧
              countEndedWrites (endCall now s).2 = 1 :=
            ⟨(endCall_fresh_counts now s hce).2.1, (endCall_fresh_counts now s hce).2.2.1⟩
          have heq : (endCall now s).2 =
              (stopRecorderIfActive { s with isCallEnded := true }).2 ++
               ((cleanup (stopRecorderIfActive { s with isCallEnded := true }).1).2 ++
                (cleanupRemoteResources now
                  (cleanup (stopRecorderIfActive { s with isCallEnded := true }).1).1).2) := by
            simp [endCall, hce, cleanupRemoteResources, List.append_assoc]
          rw [show (step now s ServiceEvent.endRequested).2 = (endCall now s).2
            from rfl, heq] at hmem
          rw [List.mem_append, List.mem_append] at hmem
          rcases hmem with hmem | hmem | hmem
          · revert hmem
            unfold stopRecorderIfActive
            cases s.mediaRecorder with
            | none => simp
            | some r =>
                dsimp only
                split_ifs <;> simp
          · revert hmem
            unfold cleanup
            split_ifs <;> simp
          · simp [cleanupRemoteResources] at hmem
            rw [hmem] at hact
            simp at hact
  | trackReceived audio video => simp [step] at hmem
  | recorderData nsz =>
      revert hmem
      unfold step
      cases s.mediaRecorder with
      | none => simp
      | some r =>
          dsimp only
          split_ifs <;> simp

/-- Over a whole event trace containing no ICE connected or completed
transition, the run emits no store write with status active. -/
theorem run_no_active_write (trace : List (Nat × ServiceEvent)) :
    ∀ s : WebRTCServiceState,
    (∀ p ∈ trace,
      p.2 ≠ ServiceEvent.iceStateChange RTCIceConnState.connected ∧
      p.2 ≠ ServiceEvent.iceStateChange RTCIceConnState.completed) →
    ∀ u : CallStateUpdate, Effect.storeUpdate u ∈ (run s trace).2 →
      u.status ≠ some "active" := by
  induction trace with
  | nil =>
      intro s hni u hmem
      simp [run] at hmem
  | cons p rest ih =>
      intro s hni u hmem hact
      have hmem2 : Effect.storeUpdate u ∈ (step p.1 s p.2).2 ++
          (run (step p.1 s p.2).1 rest).2 := by
        simpa [run] using hmem
      rcases List.mem_append.mp hmem2 with hm | hm
      · have htr := step_active_write_sole_trigger p.1 s p.2 u hm hact
        rcases htr.1 with hcon | hcon
        · exact (hni p (List.mem_cons_self p rest)).1 hcon
        · exact (hni p (List.mem_cons_self p rest)).2 hcon
      · exact ih (step p.1 s p.2).1
          (fun q hq => hni q (List.mem_cons_of_mem p hq)) u hm hact

/-- C2.  No premature activation: a store write of status active can only be
produced by the ICE connection-state callback on connected or completed, and
it carries startedAt; in particular acceptCall and answer handling write
nothing, and along any event trace with no ICE connected or completed event
the status never becomes active. -/
theorem c2_no_premature_activation :
    (∀ (now : Nat) (s : WebRTCServiceState) (e : ServiceEvent)
       (u : CallStateUpdate),
      Effect.storeUpdate u ∈ (step now s e).2 → u.status = some "active" →
      (e = ServiceEvent.iceStateChange RTCIceConnState.connected ∨
       e = ServiceEvent.iceStateChange RTCIceConnState.completed) ∧
      u.startedAt = some now) ∧
    (∀ s : WebRTCServiceState, countActiveWrites (acceptCall s).2 = 0) ∧
    (∀ (now : Nat) (s : WebRTCServiceState) (sig : WebRTCSignal),
      sig.type = SignalType.answer →
      countActiveWrites (handleSignal now s sig).2 = 0) ∧
    (∀ (trace : List (Nat × ServiceEvent)) (s : WebRTCServiceState),
      (∀ p ∈ trace,
        p.2 ≠ ServiceEvent.iceStateChange RTCIceConnState.connected ∧
        p.2 ≠ ServiceEvent.iceStateChange RTCIceConnState.completed) →
      ∀ u : CallStateUpdate, Effect.storeUpdate u ∈ (run s trace).2 →
        u.status ≠ some "active") := by
  refine ⟨step_active_write_sole_trigger, ?_, ?_,
    fun trace s hni => run_no_active_write trace s hni⟩
  · intro s
    unfold acceptCall
    split_ifs <;> simp [countActiveWrites]
  · intro now s sig hty
    cases hpc : s.peerConnection <;>
      simp [handleSignal, hpc, hty, countActiveWrites]

/-- C2 witness: on the concrete pre-offer receiver, the ICE connected event
is the event that produces the active write, and it stamps startedAt with
the clock reading 42. -/
theorem c2_no_premature_activation_witness :
    ((ServiceEvent.iceStateChange RTCIceConnState.connected =
        ServiceEvent.iceStateChange RTCIceConnState.connected ∨
      ServiceEvent.iceStateChange RTCIceConnState.connected =
        ServiceEvent.iceStateChange RTCIceConnState.completed) ∧
     (CallStateUpdate.mk (some "active") (some 42) none).startedAt = some 42) ∧
    countActiveWrites (acceptCall preOfferState).2 = 0 := by
  constructor
  · exact c2_no_premature_activation.1 42 preOfferState
      (ServiceEvent.iceStateChange RTCIceConnState.connected)
      (CallStateUpdate.mk (some "active") (some 42) none)
      (by simp [step, onIceConnectionStateChange, preOfferState]) rfl
  · exact c2_no_premature_activation.2.1 preOfferState

/- ===== C3: symmetric teardown ===== -/

/-- The ended snapshot peer B observes after peer A writes the store. -/
def endedSnapshot : CallStateSnapshot :=
  { status := "ended", endedAt := some 100 }

/-- Outcome on peer B when the end-call signal of peer A arrives before the
store transition to ended. -/
def remoteEndSignalFirst : WebRTCServiceState × List Effect :=
  run liveCallState
    [(100, ServiceEvent.signalReceived endSignalFromPeer),
     (101, ServiceEvent.callStateChanged endedSnapshot)]

/-- Outcome on peer B when the store transition to ended is observed before
the end-call signal. -/
def remoteEndStoreFirst : WebRTCServiceState × List Effect :=
  run liveCallState
    [(100, ServiceEvent.callStateChanged endedSnapshot),
     (101, ServiceEvent.signalReceived endSignalFromPeer)]

/-- C3.  Evaluation of the remote-triggered teardown at the failing input:
peer B, mid call, observes the end of peer A through the end-call signal and
the store transition in either order.  In both interleavings B sets its
latch and sends no end-call signal back — but because the latch is set
before the UI handleEndCall reaches endCall, that endCall returns on its own
guard: the local tracks are never stopped, the peer connection never closed,
and the recorder keeps recording.  The in-code comments (firebase.ts lines
384-385 and 630-631) state that cleanup will be performed via handleEndCall,
which this run refutes; the spec expectation that B releases its resources
is not met by the code. -/
theorem c3_remote_end_leaves_resources_held :
    (remoteEndSignalFirst.1.isCallEnded = true ∧
     countEndCallSignals remoteEndSignalFirst.2 = 0 ∧
     remoteEndSignalFirst.1.localStream = some exStreamLocal ∧
     remoteEndSignalFirst.1.peerConnection = true ∧
     remoteEndSignalFirst.1.mediaRecorder =
       some { state := RecorderActivity.recording, stream := exMixedStream } ∧
     Effect.localTracksStopped ∉ remoteEndSignalFirst.2 ∧
     Effect.peerConnectionClosed ∉ remoteEndSignalFirst.2 ∧
     Effect.recorderStopped ∉ remoteEndSignalFirst.2 ∧
     Effect.onCallEndedFired ∉ remoteEndSignalFirst.2) ∧
    (remoteEndStoreFirst.1.isCallEnded = true ∧
     countEndCallSignals remoteEndStoreFirst.2 = 0 ∧
     remoteEndStoreFirst.1.localStream = some exStreamLocal ∧
     remoteEndStoreFirst.1.peerConnection = true ∧
     remoteEndStoreFirst.1.mediaRecorder =
       some { state := RecorderActivity.recording, stream := exMixedStream } ∧
     Effect.localTracksStopped ∉ remoteEndStoreFirst.2 ∧
     Effect.peerConnectionClosed ∉ remoteEndStoreFirst.2 ∧
     Effect.recorderStopped ∉ remoteEndStoreFirst.2 ∧
     remoteEndStoreFirst.2 = [Effect.onCallEndedFired]) := by
  refine ⟨⟨?_, ?_, ?_, ?_, ?_, ?_, ?_, ?_, ?_⟩, ⟨?_, ?_, ?_, ?_, ?_, ?_, ?_, ?_, ?_⟩⟩ <;>
    decide
